import Mathlib

/-!
Verification of the response-orchestration client of the `key-card`
repository: the remote call gateway (`fetchWithRetry`), the service layer
(`analyzePR` / `generateResponse` in `python-service.ts`), the typed RPC
surface (`message.ts` router), the conversation-history assembler and the
orchestration controller (`page.tsx`).

The TypeScript is embedded shallowly: the HTTP transport is a parameter
`transport : Nat → FetchOutcome` giving the outcome of the k-th fetch
attempt; promises/exceptions become `Except`; JS truthiness of a string is
an emptiness test; `Date`/`crypto.randomUUID` values are opaque and left
out of the records (no claim concerns them).
-/

namespace KeyCard

/-- `PythonServiceResponse` from `python-service.ts`:
`{content: string; success: boolean}`. -/
structure PythonServiceResponse where
  content : String
  success : Bool
  deriving DecidableEq, Repr

/-- Outcome of one `fetch` call: either the promise rejected (network-level
error) or it resolved to a response with a `status` and a body that
`response.json()` parses to a `PythonServiceResponse` (`none` when the body
does not parse, in which case `await response.json()` throws). -/
inductive FetchOutcome where
  | thrown : FetchOutcome
  | resp (status : Nat) (body : Option PythonServiceResponse) : FetchOutcome
  deriving DecidableEq, Repr

/-- `response.ok`: status in the 2xx range. -/
def responseOk (status : Nat) : Bool :=
  200 ≤ status && status < 300

/-- `MAX_RETRIES = 2` in `python-service.ts` (3 attempts total). -/
def MAX_RETRIES : Nat := 2

/-- `INITIAL_RETRY_DELAY = 8000` ms in `python-service.ts`. -/
def INITIAL_RETRY_DELAY : Nat := 8000

/-- `INITIAL_RETRY_DELAY * Math.pow(1.5, retryCount)`.  `1.5^k` is written
`3^k / 2^k`; the division is exact for every `k` that occurs (the code only
computes delays for `retryCount < MAX_RETRIES = 2`, where the JS float
value is the integer 8000 resp. 12000). -/
def retryDelay (retryCount : Nat) : Nat :=
  INITIAL_RETRY_DELAY * 3 ^ retryCount / 2 ^ retryCount

deriving instance DecidableEq for Except

/-- Result of `fetchWithRetry`, instrumented for the proofs: the value the
promise settles with (`.error` = the last caught error re-thrown,
`.ok (status, body)` = a returned `Response`), the total number of `fetch`
attempts performed, and the list of `setTimeout` back-off delays awaited,
in order. -/
structure RetryResult where
  result : Except Unit (Nat × Option PythonServiceResponse)
  attempts : Nat
  delays : List Nat
  deriving DecidableEq, Repr

/-- `fetchWithRetry` from `python-service.ts`, lines 23–61.  The recursion
is driven by `budget = MAX_RETRIES - retryCount`, so the source's test
`retryCount >= MAX_RETRIES` is the `budget = 0` case; a retry decrements
the budget as the source increments `retryCount`.  The source retries a
response exactly when `retryCount < MAX_RETRIES` and the status is one of
503, 504, 500, and retries a thrown error exactly when
`retryCount < MAX_RETRIES`; otherwise the response (resp. the error) is
returned (resp. re-thrown) unmodified. -/
def fetchWithRetryAux (transport : Nat → FetchOutcome) :
    Nat → Nat → RetryResult
  | retryCount, budget =>
    match transport retryCount with
    | .resp status body =>
      if responseOk status then
        ⟨.ok (status, body), 1, []⟩
      else
        match budget with
        | 0 => ⟨.ok (status, body), 1, []⟩
        | b + 1 =>
          if status == 503 || status == 504 || status == 500 then
            let r := fetchWithRetryAux transport (retryCount + 1) b
            ⟨r.result, r.attempts + 1, retryDelay retryCount :: r.delays⟩
          else
            ⟨.ok (status, body), 1, []⟩
    | .thrown =>
      match budget with
      | 0 => ⟨.error (), 1, []⟩
      | b + 1 =>
        let r := fetchWithRetryAux transport (retryCount + 1) b
        ⟨r.result, r.attempts + 1, retryDelay retryCount :: r.delays⟩

/-- `fetchWithRetry(url, options)` with the default `retryCount = 0`. -/
def fetchWithRetry (transport : Nat → FetchOutcome) : RetryResult :=
  fetchWithRetryAux transport 0 MAX_RETRIES

end KeyCard

namespace KeyCard

/-- C1: against an endpoint answering HTTP 503 on every attempt,
`fetchWithRetry` performs exactly 3 fetch attempts, waits 8000 ms before
the second and 12000 ms before the third, and returns the response of the
final (third) attempt unmodified — no synthetic result. -/
theorem fetchWithRetry_all503 (body : Nat → Option PythonServiceResponse) :
    fetchWithRetry (fun k => .resp 503 (body k)) =
      ⟨.ok (503, body 2), 3, [8000, 12000]⟩ := by
  simp [fetchWithRetry, fetchWithRetryAux, MAX_RETRIES, responseOk,
    retryDelay, INITIAL_RETRY_DELAY]

/-- C5: a non-2xx status outside {500, 503, 504} (such as 404) is returned
immediately: exactly 1 attempt, no back-off delay; and conversely a second
attempt happens only when the first fetch threw or returned one of
500/503/504. -/
theorem fetchWithRetry_no_retry_on_definitive
    (transport : Nat → FetchOutcome) :
    (∀ status body, transport 0 = .resp status body →
      responseOk status = false →
      status ≠ 500 → status ≠ 503 → status ≠ 504 →
      fetchWithRetry transport = ⟨.ok (status, body), 1, []⟩) ∧
    (1 < (fetchWithRetry transport).attempts →
      transport 0 = .thrown ∨
        ∃ body, transport 0 = .resp 500 body ∨
          transport 0 = .resp 503 body ∨ transport 0 = .resp 504 body) := by
  constructor
  · intro status body h hok h500 h503 h504
    simp [fetchWithRetry, fetchWithRetryAux, MAX_RETRIES, h, hok, h500,
      h503, h504]
  · intro hmult
    rcases htr : transport 0 with _ | ⟨status, body⟩
    · exact Or.inl rfl
    · refine Or.inr ⟨body, ?_⟩
      by_contra hnone
      push_neg at hnone
      obtain ⟨h500, h503, h504⟩ := hnone
      have h500' : status ≠ 500 := by rintro rfl; exact h500 rfl
      have h503' : status ≠ 503 := by rintro rfl; exact h503 rfl
      have h504' : status ≠ 504 := by rintro rfl; exact h504 rfl
      rcases hok : responseOk status with _ | _
      · rw [show fetchWithRetry transport = ⟨.ok (status, body), 1, []⟩ by
          simp [fetchWithRetry, fetchWithRetryAux, MAX_RETRIES, htr, hok,
            h500', h503', h504']] at hmult
        simp at hmult
      · rw [show fetchWithRetry transport = ⟨.ok (status, body), 1, []⟩ by
          simp [fetchWithRetry, fetchWithRetryAux, MAX_RETRIES, htr,
            hok]] at hmult
        simp at hmult

/-- Witness for C5 at the concrete status 404: one attempt, no delay. -/
theorem fetchWithRetry_404_witness :
    fetchWithRetry (fun _ => .resp 404 none) =
      ⟨.ok (404, none), 1, []⟩ :=
  (fetchWithRetry_no_retry_on_definitive (fun _ => .resp 404 none)).1
    404 none rfl (by decide) (by decide) (by decide) (by decide)

end KeyCard

namespace KeyCard

/-- The catch-all fallback of `analyzePR` in `python-service.ts`. -/
def analyzePRFallback : PythonServiceResponse :=
  ⟨"Failed to analyze the PR. Please try again later.", false⟩

/-- The catch-all fallback of `generateResponse` in `python-service.ts`. -/
def generateResponseFallback : PythonServiceResponse :=
  ⟨"Failed to generate a response. Please try again later.", false⟩

/-- The shared `try { fetchWithRetry; if (!response.ok) throw; return
await response.json() } catch { return fallback }` shape of `analyzePR`
and `generateResponse` in `python-service.ts`: a re-thrown network error,
a non-2xx status (turned into a thrown `Error`) and a body that fails to
parse are all caught and replaced by the fixed fallback response. -/
def serviceCall (fallback : PythonServiceResponse)
    (transport : Nat → FetchOutcome) : PythonServiceResponse :=
  match (fetchWithRetry transport).result with
  | .error _ => fallback
  | .ok (status, body) =>
    if responseOk status then
      match body with
      | some r => r
      | none => fallback
    else fallback

/-- `analyzePR` from `python-service.ts`, lines 66–91 (the request body is
fixed by the caller; only the transport behaviour matters here). -/
def analyzePRService (transport : Nat → FetchOutcome) :
    PythonServiceResponse :=
  serviceCall analyzePRFallback transport

/-- `generateResponse` from `python-service.ts`, lines 96–121. -/
def generateResponseService (transport : Nat → FetchOutcome) :
    PythonServiceResponse :=
  serviceCall generateResponseFallback transport

end KeyCard

namespace KeyCard

/-- C9: the service layer absorbs every failure.  `analyzePR` and
`generateResponse` are total Lean functions (no exception escapes the
embedded `try/catch`), and whenever the transport ends in a thrown error
after exhausted retries or in a non-2xx status, they return
`success = false` with their fixed fallback content. -/
theorem services_total_on_failure (transport : Nat → FetchOutcome) :
    ((fetchWithRetry transport).result = .error () ∨
      ∃ status body, (fetchWithRetry transport).result = .ok (status, body) ∧
        responseOk status = false) →
    analyzePRService transport = analyzePRFallback ∧
      generateResponseService transport = generateResponseFallback := by
  intro h
  rcases h with h | ⟨status, body, h, hok⟩
  · simp [analyzePRService, generateResponseService, serviceCall, h]
  · simp [analyzePRService, generateResponseService, serviceCall, h, hok]

/-- Witness for C9: with every attempt answering 503, both services return
their fallback response. -/
theorem services_total_on_failure_witness :
    ((fetchWithRetry (fun _ => .resp 503 none)).result = .error () ∨
      ∃ status body,
        (fetchWithRetry (fun _ => .resp 503 none)).result =
          .ok (status, body) ∧ responseOk status = false) ∧
    analyzePRService (fun _ => .resp 503 none) = analyzePRFallback ∧
      generateResponseService (fun _ => .resp 503 none) =
        generateResponseFallback := by
  have h : (fetchWithRetry (fun _ => .resp 503 none)).result =
      .ok (503, none) := rfl
  exact ⟨Or.inr ⟨503, none, h, by decide⟩,
    services_total_on_failure _ (Or.inr ⟨503, none, h, by decide⟩)⟩

end KeyCard

namespace KeyCard

/-- Message role, `'user' | 'assistant'` from `types/conversation.ts`. -/
inductive Role where
  | user
  | assistant
  deriving DecidableEq, Repr

/-- Input schema of `sendMessage` in `message.ts`:
`z.object({content: z.string(), role: z.enum(['user','assistant']),
prUrl: z.string().url().optional()})`.  `z.string()` places no lower bound
on the length of `content`. -/
structure SendInput where
  content : String
  role : Role
  prUrl : Option String
  deriving DecidableEq, Repr

/-- Result of `sendMessage` without the externally generated
`messageId` (`crypto.randomUUID()`) and `timestamp` (`new Date()`). -/
structure SendResult where
  role : Role
  content : String
  deriving DecidableEq, Repr

/-- The `sendMessage` procedure of `message.ts`, lines 6–20: schema
validation (parameterised by the platform URL check `urlValid` used by
`z.string().url()`; the role is an enum by construction; `z.string()`
accepts every string) followed by the mutation body, which returns
`role: 'user' as const` and echoes `input.content`.  `none` is a thrown
validation error. -/
def sendMessageRoute (urlValid : String → Bool) (input : SendInput) :
    Option SendResult :=
  if (match input.prUrl with
      | some u => urlValid u
      | none => true) then
    some ⟨Role.user, input.content⟩
  else
    none

/-- Result of the `analyzePR` procedure without the `timestamp`. -/
structure AnalyzeResult where
  content : String
  success : Bool
  deriving DecidableEq, Repr

/-- The `analyzePR` procedure of `message.ts`, lines 22–51, instrumented
with the list of `pr_url` values it forwards to the Python service (every
network call of the procedure happens inside that service).  `urlValid`
stands for the platform `new URL(...)` constructor succeeding; `service`
is the (never-throwing, by `services_total_on_failure`) Python service, so
the `catch` block fires exactly when the URL check throws. -/
def analyzePRRoute (urlValid : String → Bool)
    (service : String → PythonServiceResponse) (prUrl : String) :
    AnalyzeResult × List String :=
  if urlValid prUrl then
    let result := service prUrl
    (⟨result.content, result.success⟩, [prUrl])
  else
    (⟨"Invalid GitHub URL: \"" ++ prUrl ++
        "\". Please provide a valid GitHub pull request URL.", false⟩, [])

/-- Approximation of the WHATWG `new URL(...)` validity used only to
instantiate witnesses: the string must start with a scheme — an ASCII
letter, then scheme characters, then a colon.  The URL constructor is a
platform builtin, not repository code; the theorems quantify over the
check, so only the (defining) fact that `"not a url"` has no scheme is
used. -/
def urlHasScheme (s : String) : Bool :=
  match s.toList with
  | [] => false
  | c :: rest =>
    c.isAlpha &&
      (match rest.dropWhile
          (fun d => d.isAlphanum || d == '+' || d == '-' || d == '.') with
       | ':' :: _ => true
       | _ => false)

/-- JS `String.prototype.trim` (a platform builtin): strip leading and
trailing whitespace. -/
def jsTrim (s : String) : String :=
  ⟨((s.toList.dropWhile Char.isWhitespace).reverse.dropWhile
      Char.isWhitespace).reverse⟩

/-- The `handleSubmit` guard of `components/ChatInput.tsx`, lines 17–23:
`if (!input.trim()) return;` then `onSendMessage(input.trim())` — the
only falsy string is the empty one.  The result is the content handed to
`onSendMessage`, `none` when the submission is dropped locally (no remote
call of any kind happens). -/
def chatInputSubmit (input : String) : Option String :=
  if jsTrim input = "" then none else some (jsTrim input)

end KeyCard

namespace KeyCard

/-- C3: for an input the URL check rejects, `analyzePR` returns
`success = false` with content exactly
`Invalid GitHub URL: "<url>". Please provide a valid GitHub pull request
URL.` and forwards nothing to the Python service — zero network calls. -/
theorem analyzePR_invalid_url (urlValid : String → Bool)
    (service : String → PythonServiceResponse) (prUrl : String)
    (h : urlValid prUrl = false) :
    analyzePRRoute urlValid service prUrl =
      (⟨"Invalid GitHub URL: \"" ++ prUrl ++
          "\". Please provide a valid GitHub pull request URL.", false⟩,
        []) := by
  simp [analyzePRRoute, h]

/-- Witness for C3 at the concrete input `"not a url"`, which no URL check
modelling `new URL` accepts (it has no scheme). -/
theorem analyzePR_invalid_url_witness :
    urlHasScheme "not a url" = false ∧
      analyzePRRoute urlHasScheme (fun _ => ⟨"", true⟩) "not a url" =
        (⟨"Invalid GitHub URL: \"not a url\". Please provide a valid GitHub pull request URL.",
            false⟩, []) :=
  ⟨by decide,
    analyzePR_invalid_url urlHasScheme (fun _ => ⟨"", true⟩) "not a url"
      (by decide)⟩

end KeyCard

namespace KeyCard

/-- Counterexample to C7: the `sendMessage` procedure does NOT fail
validation on empty content — its schema is `z.string()` with no minimum
length, so the input `{content: "", role: 'user'}` passes validation and
the mutation returns normally (echoing the empty content). -/
theorem sendMessage_accepts_empty_content :
    sendMessageRoute (fun _ => true) ⟨"", Role.user, none⟩ =
      some ⟨Role.user, ""⟩ := by
  decide

/-- C7 as amended: empty submissions are blocked locally in the UI — the
chat input's `handleSubmit` drops any input whose trimmed content is
empty, issuing no call at all (hence no network call) — but the
`sendMessage` procedure itself accepts the empty string; the emptiness
check lives only in `ChatInput.tsx`, not in the procedure's schema. -/
theorem empty_submission_blocked_locally :
    (∀ input : String, jsTrim input = "" → chatInputSubmit input = none) ∧
      (∀ urlValid : String → Bool,
        sendMessageRoute urlValid ⟨"", Role.user, none⟩ =
          some ⟨Role.user, ""⟩) := by
  constructor
  · intro input h
    simp [chatInputSubmit, h]
  · intro urlValid
    simp [sendMessageRoute]

/-- Witness for the amended C7 at the concrete inputs `"  "` (whitespace
only, dropped locally) and the always-true URL check. -/
theorem empty_submission_blocked_locally_witness :
    (jsTrim "  " = "") ∧ chatInputSubmit "  " = none ∧
      sendMessageRoute (fun _ => true) ⟨"", Role.user, none⟩ =
        some ⟨Role.user, ""⟩ :=
  ⟨by decide, empty_submission_blocked_locally.1 "  " (by decide),
    empty_submission_blocked_locally.2 (fun _ => true)⟩

/-- C10: whenever `sendMessage` passes validation, the result's role is
`'user'` — even when the input role is `'assistant'` — the input content
is echoed unchanged, and the input role has no effect on the result at
all.  (`messageId`/`timestamp` come from `crypto.randomUUID()` and
`new Date()`, outside the embedding.) -/
theorem sendMessage_role_is_user (urlValid : String → Bool)
    (input : SendInput) (r : SendResult)
    (h : sendMessageRoute urlValid input = some r) :
    r.role = Role.user ∧ r.content = input.content ∧
      (∀ otherRole : Role,
        sendMessageRoute urlValid
            ⟨input.content, otherRole, input.prUrl⟩ =
          sendMessageRoute urlValid input) := by
  refine ⟨?_, ?_, ?_⟩ <;>
    first
      | · simp only [sendMessageRoute] at h
          split at h
          · cases h
            rfl
          · cases h
      | · intro otherRole
          simp only [sendMessageRoute]

/-- Witness for C10: an input with role `'assistant'` passes validation
and still comes back with role `'user'` and the same content. -/
theorem sendMessage_role_is_user_witness :
    sendMessageRoute (fun _ => true) ⟨"hello", Role.assistant, none⟩ =
        some ⟨Role.user, "hello"⟩ ∧
      (Role.user = Role.user ∧ "hello" = "hello" ∧
        (∀ otherRole : Role,
          sendMessageRoute (fun _ => true) ⟨"hello", otherRole, none⟩ =
            sendMessageRoute (fun _ => true)
              ⟨"hello", Role.assistant, none⟩)) :=
  ⟨by decide,
    sendMessage_role_is_user (fun _ => true) ⟨"hello", Role.assistant, none⟩
      ⟨Role.user, "hello"⟩ (by decide)⟩

end KeyCard

namespace KeyCard

/-- `Message` from `types/conversation.ts`, restricted to the fields the
claims speak about (`id` is `crypto.randomUUID()` and `timestamp` is
`new Date()`, both opaque platform values; `sources`/`scores` are passed
through untouched and never inspected by the core). -/
structure Message where
  content : String
  role : Role
  deriving DecidableEq, Repr

/-- The body of the `.map` in `getConversationHistory` (`page.tsx`,
lines 143–146): `` `${msg.role === 'user' ? 'User' : 'Assistant'}:
${msg.content}` ``. -/
def renderMessage (msg : Message) : String :=
  (if msg.role = Role.user then "User" else "Assistant") ++ ": " ++
    msg.content

/-- `getConversationHistory` from `page.tsx`, lines 139–147:
`msgs.slice(-10)` (the last 10 messages, all of them when fewer exist —
`slice(-10)` clamps at the head), each rendered by `renderMessage`,
joined with `'\n\n'`. -/
def getConversationHistory (msgs : List Message) : String :=
  String.intercalate "\n\n"
    ((msgs.drop (msgs.length - 10)).map renderMessage)

/-- Modelled from the spec's words for §4.3 (`assemble`), for comparison
with `getConversationHistory`: take the most recent 10 messages (via
reverse/take/reverse, so original chronological order is kept), render
each as `"<Role>: <content>"` with the role name capitalized, and join
the entries with a blank line. -/
def assembleSpec (msgs : List Message) : String :=
  String.intercalate "\n\n"
    ((msgs.reverse.take 10).reverse.map
      (fun m =>
        (match m.role with
          | Role.user => "User"
          | Role.assistant => "Assistant") ++ ": " ++ m.content))

end KeyCard

namespace KeyCard

/-- C4: the history assembler agrees with the spec's contract — most
recent 10 messages (all when fewer), original order, capitalized
`User:`/`Assistant:` rendering, blank-line separator — and on any list of
15 messages it returns exactly the last 10 (those after dropping the
first 5). -/
theorem getConversationHistory_spec (msgs : List Message) :
    getConversationHistory msgs = assembleSpec msgs ∧
      (msgs.length = 15 →
        getConversationHistory msgs =
          String.intercalate "\n\n" ((msgs.drop 5).map renderMessage)) := by
  constructor
  · unfold getConversationHistory assembleSpec
    rw [List.take_reverse, List.reverse_reverse]
    congr 1
    apply List.map_congr_left
    intro m _
    unfold renderMessage
    cases m.role <;> simp
  · intro h
    unfold getConversationHistory
    rw [h]

/-- Witness for C4 on a concrete 15-message conversation: the assembled
history is the last 10 messages, in order, blank-line separated. -/
theorem getConversationHistory_spec_witness :
    (((List.range 15).map
        (fun k => (⟨toString k, Role.user⟩ : Message))).length = 15) ∧
      getConversationHistory
          ((List.range 15).map
            (fun k => (⟨toString k, Role.user⟩ : Message))) =
        String.intercalate "\n\n"
          ((((List.range 15).map
              (fun k => (⟨toString k, Role.user⟩ : Message))).drop 5).map
            renderMessage) :=
  ⟨by decide,
    (getConversationHistory_spec
        ((List.range 15).map
          (fun k => (⟨toString k, Role.user⟩ : Message)))).2 (by decide)⟩

end KeyCard

namespace KeyCard

/-- The `{content, success}` payload a mutation's `onSuccess` receives
from the `generateResponse` / `analyzePR` procedures (the `timestamp`
field is never read by the handlers). -/
structure MutationData where
  content : String
  success : Bool
  deriving DecidableEq, Repr

/-- The component state of `Home` in `page.tsx`: `messages`,
`isAnalyzing`, `isFirstRequest` (initially `[]`, `false`, `true`). -/
structure HomeState where
  messages : List Message
  isAnalyzing : Bool
  isFirstRequest : Bool
  deriving DecidableEq, Repr

/-- The warming-up message of `page.tsx` (used in both `onError`
handlers when `isFirstRequest` is still set). -/
def warmingUpMsg : String :=
  "The backend service is warming up (this may take up to a minute on first use). Please try again shortly."

/-- `generateResponseMutation.onSuccess` (`page.tsx`, lines 17–39):
on `success` append the assistant response and clear `isFirstRequest`;
otherwise append `data.content || 'Failed to generate a response. Please
try again.'` (the empty string is the only falsy content); either way
clear `isAnalyzing`. -/
def generateOnSuccess (data : MutationData) (s : HomeState) : HomeState :=
  if data.success then
    { s with
        messages := s.messages ++ [⟨data.content, Role.assistant⟩],
        isFirstRequest := false,
        isAnalyzing := false }
  else
    { s with
        messages := s.messages ++
          [⟨(if data.content = "" then
              "Failed to generate a response. Please try again."
            else data.content), Role.assistant⟩],
        isAnalyzing := false }

/-- `generateResponseMutation.onError` (`page.tsx`, lines 40–59): the
fixed server-error text, replaced by the warming-up text while
`isFirstRequest` is still set; append as assistant, clear
`isAnalyzing`. -/
def generateOnError (s : HomeState) : HomeState :=
  { s with
      messages := s.messages ++
        [⟨(if s.isFirstRequest then warmingUpMsg
           else
             "Failed to generate a response due to a server error. Please try again."),
          Role.assistant⟩],
      isAnalyzing := false }

/-- `sendMessageMutation.onError` (`page.tsx`, lines 77–89). -/
def sendOnError (s : HomeState) : HomeState :=
  { s with
      messages := s.messages ++
        [⟨"Failed to send message. Please try again.", Role.assistant⟩],
      isAnalyzing := false }

/-- `analyzePRMutation.onSuccess` (`page.tsx`, lines 93–115). -/
def analyzeOnSuccess (data : MutationData) (s : HomeState) : HomeState :=
  if data.success then
    { s with
        messages := s.messages ++ [⟨data.content, Role.assistant⟩],
        isFirstRequest := false,
        isAnalyzing := false }
  else
    { s with
        messages := s.messages ++
          [⟨(if data.content = "" then
              "Failed to analyze the PR. Please try again."
            else data.content), Role.assistant⟩],
        isAnalyzing := false }

/-- `analyzePRMutation.onError` (`page.tsx`, lines 116–135). -/
def analyzeOnError (s : HomeState) : HomeState :=
  { s with
      messages := s.messages ++
        [⟨(if s.isFirstRequest then warmingUpMsg
           else
             "Failed to analyze the PR due to a server error. Please try again."),
          Role.assistant⟩],
      isAnalyzing := false }

/-- `handleSendMessage` (`page.tsx`, lines 149–165): optimistic local
append of the user message and `setIsAnalyzing(true)` before the
`sendMessageMutation.mutate` call. -/
def handleSendMessage (content : String) (s : HomeState) : HomeState :=
  { s with
      messages := s.messages ++ [⟨content, Role.user⟩],
      isAnalyzing := true }

/-- `handlePRSubmit` (`page.tsx`, lines 167–181): appends the
`Analyzing PR: <url>` placeholder — with role `'assistant'` — and sets
`isAnalyzing` before `analyzePRMutation.mutate`. -/
def handlePRSubmit (url : String) (s : HomeState) : HomeState :=
  { s with
      messages := s.messages ++
        [⟨"Analyzing PR: " ++ url, Role.assistant⟩],
      isAnalyzing := true }

/-- How a chat turn's call chain terminates: the `sendMessage` mutation
rejects; it resolves and the chained `generateResponse` mutation rejects;
or the latter resolves with payload `d` (`d.success` covers both the
logical-success and logical-failure branches of `onSuccess`). -/
inductive ChatOutcome where
  | submitError
  | generationError
  | generation (d : MutationData)
  deriving DecidableEq, Repr

/-- One complete chat turn of the controller: `handleSendMessage`, then
the terminal handler selected by the outcome (`sendMessageMutation.
onSuccess` itself only reads state to fire the second mutation). -/
def chatFlow (o : ChatOutcome) (content : String) (s : HomeState) :
    HomeState :=
  let s1 := handleSendMessage content s
  match o with
  | .submitError => sendOnError s1
  | .generationError => generateOnError s1
  | .generation d => generateOnSuccess d s1

/-- How a PR turn's call chain terminates. -/
inductive PROutcome where
  | analysisError
  | analysis (d : MutationData)
  deriving DecidableEq, Repr

/-- One complete PR-analysis turn: `handlePRSubmit`, then the terminal
`analyzePRMutation` handler. -/
def prFlow (o : PROutcome) (url : String) (s : HomeState) : HomeState :=
  let s1 := handlePRSubmit url s
  match o with
  | .analysisError => analyzeOnError s1
  | .analysis d => analyzeOnSuccess d s1

/-- Number of assistant-role messages in a list. -/
def countAssistant (msgs : List Message) : Nat :=
  (msgs.filter (fun m => m.role == Role.assistant)).length

end KeyCard

namespace KeyCard

/-- C2: `isAnalyzing` is set when a chat or PR flow starts and is false
after every terminal handler — submit failure, generation transport
failure, generation success and logical failure, PR success and failure —
so no execution path of the controller leaves the flag permanently
true. -/
theorem isAnalyzing_cleared_on_every_path :
    (∀ (content : String) (s : HomeState),
      (handleSendMessage content s).isAnalyzing = true) ∧
    (∀ (url : String) (s : HomeState),
      (handlePRSubmit url s).isAnalyzing = true) ∧
    (∀ (o : ChatOutcome) (content : String) (s : HomeState),
      (chatFlow o content s).isAnalyzing = false) ∧
    (∀ (o : PROutcome) (url : String) (s : HomeState),
      (prFlow o url s).isAnalyzing = false) := by
  refine ⟨fun _ _ => rfl, fun _ _ => rfl, ?_, ?_⟩
  · intro o content s
    cases o with
    | submitError => rfl
    | generationError => rfl
    | generation d =>
      simp only [chatFlow, generateOnSuccess]
      split <;> rfl
  · intro o url s
    cases o with
    | analysisError => rfl
    | analysis d =>
      simp only [prFlow, analyzeOnSuccess]
      split <;> rfl

/-- Counterexample to C6: a PR-URL submission appends TWO assistant-role
messages, not one — the `Analyzing PR: <url>` placeholder that
`handlePRSubmit` appends carries role `'assistant'`, and the terminal
handler appends a second assistant message.  Concretely, a failing PR
turn from the initial state ends with 2 assistant messages where the
claim allows exactly 1. -/
theorem prSubmit_appends_two_assistant_messages :
    countAssistant
        (prFlow PROutcome.analysisError "https://x" ⟨[], false, true⟩).messages = 2 ∧
      countAssistant ([] : List Message) = 0 ∧ (2 : Nat) ≠ 1 := by
  refine ⟨?_, rfl, by decide⟩
  rfl

/-- C6 as amended: every chat-message submission appends exactly one new
assistant-role message over the whole call chain (never zero, never two),
while every PR-URL submission appends exactly two assistant-role
messages: the `Analyzing PR: <url>` placeholder and exactly one terminal
result message. -/
theorem assistant_message_count_per_turn :
    (∀ (o : ChatOutcome) (content : String) (s : HomeState),
      countAssistant (chatFlow o content s).messages =
        countAssistant s.messages + 1) ∧
    (∀ (o : PROutcome) (url : String) (s : HomeState),
      countAssistant (prFlow o url s).messages =
        countAssistant s.messages + 2) := by
  constructor
  · intro o content s
    cases o with
    | submitError =>
      simp [chatFlow, sendOnError, handleSendMessage, countAssistant]
    | generationError =>
      simp [chatFlow, generateOnError, handleSendMessage, countAssistant]
    | generation d =>
      simp only [chatFlow, generateOnSuccess, handleSendMessage]
      split <;> simp [countAssistant]
  · intro o url s
    cases o with
    | analysisError =>
      simp [prFlow, analyzeOnError, handlePRSubmit, countAssistant]
    | analysis d =>
      simp only [prFlow, analyzeOnSuccess, handlePRSubmit]
      split <;> simp [countAssistant]

/-- Counterexample to C8: on a generation transport failure while
`isFirstRequest` is still set — which is exactly the state every session
starts in — the controller appends the warming-up text, not the fixed
server-error text the claim requires for every such failure. -/
theorem generateOnError_firstRequest_not_fixed_text :
    (generateOnError ⟨[⟨"hi", Role.user⟩], true, true⟩).messages =
        [⟨"hi", Role.user⟩, ⟨warmingUpMsg, Role.assistant⟩] ∧
      warmingUpMsg ≠
        "Failed to generate a response due to a server error. Please try again." := by
  exact ⟨rfl, by decide⟩

/-- C8 as amended: on a generation transport failure the controller
appends exactly one assistant message and clears `isAnalyzing`; its
content is the fixed text `Failed to generate a response due to a server
error. Please try again.` whenever a previous request has already
succeeded (`isFirstRequest = false`), and the warming-up text while
`isFirstRequest` is still set. -/
theorem generateOnError_message_content (s : HomeState) :
    (generateOnError s).isAnalyzing = false ∧
      (generateOnError s).messages =
        s.messages ++
          [⟨(if s.isFirstRequest then warmingUpMsg
             else
               "Failed to generate a response due to a server error. Please try again."),
            Role.assistant⟩] :=
  ⟨rfl, rfl⟩

end KeyCard
